import Mathlib

/-!
Verification of the `rmx` library (src/include/rmx/rmx.hpp): a Rust-inspired
mutex `rmx::Mutex<ValueT, MutexImplT>` wrapping a value, paired with an
RAII guard `rmx::MutexGuard` that poisons the mutex when it is destroyed
while an exception is propagating.

The shallow embedding models the observable state of one `Mutex` object as
a record of its three data members (`m_mutex` reduced to whether the
primitive is currently held, `m_value`, `m_was_poisoned`), and each public
operation as a function on that state, translated line by line from the
header.  `std::uncaught_exceptions()` is modelled as a natural number
passed to the guard destructor, since the destructor only reads its value
at destruction time.  A blocking `lock`/`lock_unchecked` call on a held
primitive is represented by the `none`/`blocked` outcome: in this
sequential model such a call has not returned.
-/

namespace rmx

/-- Observable state of one `rmx::Mutex<ValueT>` object: the three data
members of the C++ class.  `m_locked` abstracts the `MutexImplT m_mutex`
member to whether the primitive is currently held. -/
structure MutexState (V : Type) where
  m_locked : Bool
  m_value : V
  m_was_poisoned : Bool
  deriving Repr, DecidableEq

/-- The exception thrown by `Mutex::throw_if_poisoned`: a
`std::runtime_error`, modelled by its `what()` message. -/
structure PoisonedError where
  what : String
  deriving Repr, DecidableEq

/-- Message of the `std::runtime_error` thrown by `throw_if_poisoned`. -/
def poisonedWhat : String :=
  "Mutex poisoned: exception thrown while Mutex was locked"

/-- `Mutex::Mutex(ValueT&&)`: take ownership of an existing value.
`m_was_poisoned` has initializer `false`, and the primitive starts
unlocked. -/
def Mutex.mk {V : Type} (v : V) : MutexState V :=
  { m_locked := false, m_value := v, m_was_poisoned := false }

/-- The forwarding constructor `Mutex::Mutex(ArgsT&&... args)`: in-place
constructs `m_value` from the forwarded arguments.  The argument pack is
modelled as a value `args : A` together with the constructor
`ctor : A → V` of the value type selected by overload resolution. -/
def Mutex.mkArgs {V A : Type} (ctor : A → V) (args : A) : MutexState V :=
  Mutex.mk (ctor args)

/-- `Mutex::is_poisoned()`: read of `m_was_poisoned`. -/
def Mutex.is_poisoned {V : Type} (s : MutexState V) : Bool :=
  s.m_was_poisoned

/-- `Mutex::throw_if_poisoned()`: throws `std::runtime_error` when
`is_poisoned()`; reads the flag and modifies nothing. -/
def Mutex.throw_if_poisoned {V : Type} (s : MutexState V) :
    Except PoisonedError Unit :=
  if Mutex.is_poisoned s then Except.error ⟨poisonedWhat⟩ else Except.ok ()

/-- `Mutex::lock_unchecked()`: `std::unique_lock<MutexImplT> lock(m_mutex)`
blocks until the primitive is free, then a guard is returned.  In this
sequential model, `none` means the call is blocked (the primitive is held
and the call has not returned); `some` gives the state after acquisition,
with the guard alive. -/
def Mutex.lock_unchecked {V : Type} (s : MutexState V) :
    Option (MutexState V) :=
  if s.m_locked then none else some { s with m_locked := true }

/-- `Mutex::lock()`: `throw_if_poisoned(); return lock_unchecked();` —
the poison check runs first, and only when it does not throw is the
primitive acquisition attempted. -/
def Mutex.lock {V : Type} (s : MutexState V) :
    Except PoisonedError (Option (MutexState V)) := do
  let _ ← Mutex.throw_if_poisoned s
  pure (Mutex.lock_unchecked s)

/-- `Mutex::try_lock_unchecked()`: a non-blocking attempt
(`std::try_to_lock`).  Returns the post-call state and whether a guard was
produced; it always returns immediately. -/
def Mutex.try_lock_unchecked {V : Type} (s : MutexState V) :
    MutexState V × Bool :=
  if s.m_locked then (s, false) else ({ s with m_locked := true }, true)

/-- `Mutex::try_lock()`: `throw_if_poisoned(); return try_lock_unchecked();` -/
def Mutex.try_lock {V : Type} (s : MutexState V) :
    Except PoisonedError (MutexState V × Bool) := do
  let _ ← Mutex.throw_if_poisoned s
  pure (Mutex.try_lock_unchecked s)

/-- Outcome of a call to `lock()` together with the state of the mutex
when control leaves the call (by return, by throw, or never, when the call
blocks forever in this sequential model). -/
inductive CallResult (V : Type) where
  | threw (e : PoisonedError) (s : MutexState V)
  | blocked (s : MutexState V)
  | returned (s : MutexState V)
  deriving Repr, DecidableEq

/-- State-threaded view of `Mutex::lock()`.  `throw_if_poisoned` writes no
member, so on a throw the state at the throw is the entry state. -/
def Mutex.lockCall {V : Type} (s : MutexState V) : CallResult V :=
  match Mutex.lock s with
  | Except.error e => CallResult.threw e s
  | Except.ok none => CallResult.blocked s
  | Except.ok (some s2) => CallResult.returned s2

/-- State-threaded view of `Mutex::try_lock()`: the outcome and the state
when control leaves the call; the `Bool` records whether the returned
`std::optional` holds a guard. -/
def Mutex.tryLockCall {V : Type} (s : MutexState V) :
    CallResult V × Bool :=
  match Mutex.try_lock s with
  | Except.error e => (CallResult.threw e s, false)
  | Except.ok (s2, got) => (CallResult.returned s2, got)

/-- `MutexGuard::operator*()`: returns a reference to the protected value;
reading through it reads the mutex's `m_value` member. -/
def MutexGuard.deref {V : Type} (s : MutexState V) : V :=
  s.m_value

/-- Assignment through the reference returned by `MutexGuard::operator*()`:
writes the mutex's own `m_value` member (the guard holds
`std::reference_wrapper<ValueT>` to it, not a copy). -/
def MutexGuard.derefAssign {V : Type} (s : MutexState V) (v : V) :
    MutexState V :=
  { s with m_value := v }

/-- Body of `MutexGuard::~MutexGuard()`: if `std::uncaught_exceptions()`
is nonzero at destruction time, set the shared `m_was_poisoned` flag.
Runs before the member destructors. -/
def MutexGuard.dtorBody {V : Type} (uncaughtExceptions : Nat)
    (s : MutexState V) : MutexState V :=
  if uncaughtExceptions ≠ 0 then { s with m_was_poisoned := true } else s

/-- Destruction of the `m_lock` member (`std::unique_lock`), which runs
after the destructor body and releases the primitive. -/
def MutexGuard.releaseLock {V : Type} (s : MutexState V) : MutexState V :=
  { s with m_locked := false }

/-- Full effect of `MutexGuard::~MutexGuard()`: the destructor body runs
first, then the member destructors release the primitive.
`uncaughtExceptions` is the value of `std::uncaught_exceptions()` at the
moment of destruction. -/
def MutexGuard.dtor {V : Type} (uncaughtExceptions : Nat)
    (s : MutexState V) : MutexState V :=
  MutexGuard.releaseLock (MutexGuard.dtorBody uncaughtExceptions s)

/-- One operation of the public interface, for reasoning about sequences
of calls on one mutex. -/
inductive Op (V : Type) where
  | lock
  | lock_unchecked
  | try_lock
  | try_lock_unchecked
  | is_poisoned
  | guardWrite (v : V)
  | guardRelease (uncaughtExceptions : Nat)

/-- State after one public-interface operation.  Calls that throw or block
leave the state as they found it (per `lockCall`/`tryLockCall`). -/
def step {V : Type} (op : Op V) (s : MutexState V) : MutexState V :=
  match op with
  | Op.lock =>
    match Mutex.lockCall s with
    | CallResult.threw _ s2 => s2
    | CallResult.blocked s2 => s2
    | CallResult.returned s2 => s2
  | Op.lock_unchecked => (Mutex.lock_unchecked s).getD s
  | Op.try_lock =>
    match (Mutex.tryLockCall s).1 with
    | CallResult.threw _ s2 => s2
    | CallResult.blocked s2 => s2
    | CallResult.returned s2 => s2
  | Op.try_lock_unchecked => (Mutex.try_lock_unchecked s).1
  | Op.is_poisoned => s
  | Op.guardWrite v => MutexGuard.derefAssign s v
  | Op.guardRelease ue => MutexGuard.dtor ue s

/-- State after a sequence of public-interface operations. -/
def run {V : Type} (s : MutexState V) (ops : List (Op V)) : MutexState V :=
  ops.foldl (fun t op => step op t) s

lemma step_preserves_poison {V : Type} (op : Op V) (s : MutexState V)
    (h : s.m_was_poisoned = true) : (step op s).m_was_poisoned = true := by
  obtain ⟨l, v, p⟩ := s
  simp only [MutexState.mk.injEq] at h
  cases l <;> cases op <;>
    simp_all [step, Mutex.lockCall, Mutex.lock, Mutex.tryLockCall,
      Mutex.try_lock, Mutex.throw_if_poisoned, Mutex.is_poisoned,
      Mutex.lock_unchecked, Mutex.try_lock_unchecked, MutexGuard.dtor,
      MutexGuard.dtorBody, MutexGuard.releaseLock, MutexGuard.derefAssign]

lemma run_preserves_poison {V : Type} (ops : List (Op V)) (s : MutexState V)
    (h : s.m_was_poisoned = true) : (run s ops).m_was_poisoned = true := by
  induction ops generalizing s with
  | nil => exact h
  | cons op rest ih => exact ih (step op s) (step_preserves_poison op s h)

/-- C1: at every `MutexGuard` release, if an unhandled failure is
propagating (`std::uncaught_exceptions() ≠ 0`), the destructor body sets
the shared poison flag while the primitive is still held — i.e. before the
`m_lock` member's destructor unlocks it — and the full destructor always
releases the primitive, whether or not poisoning occurred. -/
theorem guard_release_poisons_before_unlock {V : Type} (ue : Nat)
    (s : MutexState V) :
    (ue ≠ 0 → (MutexGuard.dtorBody ue s).m_was_poisoned = true ∧
      (MutexGuard.dtorBody ue s).m_locked = s.m_locked) ∧
    MutexGuard.dtor ue s = MutexGuard.releaseLock (MutexGuard.dtorBody ue s) ∧
    (MutexGuard.dtor ue s).m_locked = false := by
  refine ⟨fun h => ?_, rfl, rfl⟩
  simp [MutexGuard.dtorBody, h]

theorem guard_release_poisons_before_unlock_check :
    (MutexGuard.dtorBody 1 (⟨true, true, false⟩ : MutexState Bool)).m_was_poisoned
        = true ∧
    (MutexGuard.dtor 1 (⟨true, true, false⟩ : MutexState Bool)).m_locked
        = false := by
  have h := guard_release_poisons_before_unlock 1
    (⟨true, true, false⟩ : MutexState Bool)
  exact ⟨(h.1 (by decide)).1, h.2.2⟩

/-- C2: `Mutex::lock()` throws `PoisonedError` (the
`std::runtime_error` with `poisonedWhat`) iff `m_was_poisoned` is true at
the time of the check, for every lock state of the primitive (the check
runs before any acquisition attempt); it never produces a guard when
poisoned; and when not poisoned (and the primitive free) it returns a
guard, having acquired the primitive. -/
theorem lock_checked_poison_semantics {V : Type} (s : MutexState V) :
    (Mutex.lock s = Except.error ⟨poisonedWhat⟩ ↔ s.m_was_poisoned = true) ∧
    (s.m_was_poisoned = true →
      ∀ g : MutexState V, Mutex.lock s ≠ Except.ok (some g)) ∧
    (s.m_was_poisoned = false → s.m_locked = false →
      Mutex.lock s = Except.ok (some { s with m_locked := true })) := by
  obtain ⟨l, v, p⟩ := s
  cases l <;> cases p <;>
    simp [Mutex.lock, Mutex.throw_if_poisoned, Mutex.is_poisoned,
      Mutex.lock_unchecked]

theorem lock_checked_poison_semantics_check :
    Mutex.lock (⟨false, true, true⟩ : MutexState Bool)
        = Except.error ⟨poisonedWhat⟩ ∧
    Mutex.lock (⟨false, true, false⟩ : MutexState Bool)
        = Except.ok (some ⟨true, true, false⟩) := by
  refine ⟨?_, ?_⟩
  · exact (lock_checked_poison_semantics
      (⟨false, true, true⟩ : MutexState Bool)).1.mpr (by decide)
  · exact (lock_checked_poison_semantics
      (⟨false, true, false⟩ : MutexState Bool)).2.2 (by decide) (by decide)

/-- C3: the poison flag is false at construction and monotonic: no
public-interface operation (lock, lock_unchecked, try_lock,
try_lock_unchecked, is_poisoned, writes through a guard, guard release)
ever resets it, so over any sequence of operations, once true it stays
true. -/
theorem poison_flag_monotone {V : Type} (v : V) (s : MutexState V)
    (ops : List (Op V)) :
    (Mutex.mk v).m_was_poisoned = false ∧
    (s.m_was_poisoned = true → (run s ops).m_was_poisoned = true) := by
  exact ⟨rfl, fun h => run_preserves_poison ops s h⟩

theorem poison_flag_monotone_check :
    (Mutex.mk true).m_was_poisoned = false ∧
    (run (⟨false, true, true⟩ : MutexState Bool)
      [Op.lock_unchecked, Op.guardWrite false, Op.guardRelease 0,
       Op.try_lock, Op.lock, Op.is_poisoned]).m_was_poisoned = true := by
  have h := poison_flag_monotone true (⟨false, true, true⟩ : MutexState Bool)
    [Op.lock_unchecked, Op.guardWrite false, Op.guardRelease 0,
     Op.try_lock, Op.lock, Op.is_poisoned]
  exact ⟨h.1, h.2 (by decide)⟩

/-- C4: `Mutex::try_lock()` performs the same poison check as `lock`
(throwing `PoisonedError` iff poisoned); when not poisoned it attempts a
non-blocking acquisition: a guard immediately if the primitive is free, an
empty `std::optional` if it is held.  It never blocks: every case returns
at once (there is no blocked outcome in its result type, unlike `lock`). -/
theorem try_lock_checked_semantics {V : Type} (s : MutexState V) :
    (Mutex.try_lock s = Except.error ⟨poisonedWhat⟩ ↔
      s.m_was_poisoned = true) ∧
    (s.m_was_poisoned = false → s.m_locked = false →
      Mutex.try_lock s = Except.ok ({ s with m_locked := true }, true)) ∧
    (s.m_was_poisoned = false → s.m_locked = true →
      Mutex.try_lock s = Except.ok (s, false)) := by
  obtain ⟨l, v, p⟩ := s
  cases l <;> cases p <;>
    simp [Mutex.try_lock, Mutex.throw_if_poisoned, Mutex.is_poisoned,
      Mutex.try_lock_unchecked]

theorem try_lock_checked_semantics_check :
    Mutex.try_lock (⟨false, true, true⟩ : MutexState Bool)
        = Except.error ⟨poisonedWhat⟩ ∧
    Mutex.try_lock (⟨false, true, false⟩ : MutexState Bool)
        = Except.ok (⟨true, true, false⟩, true) ∧
    Mutex.try_lock (⟨true, true, false⟩ : MutexState Bool)
        = Except.ok (⟨true, true, false⟩, false) := by
  refine ⟨?_, ?_, ?_⟩
  · exact (try_lock_checked_semantics
      (⟨false, true, true⟩ : MutexState Bool)).1.mpr (by decide)
  · exact (try_lock_checked_semantics
      (⟨false, true, false⟩ : MutexState Bool)).2.1 (by decide) (by decide)
  · exact (try_lock_checked_semantics
      (⟨true, true, false⟩ : MutexState Bool)).2.2 (by decide) (by decide)

/-- C5: when a failure raised inside a guard's scope is caught and
suppressed before the guard is released, the scope exits normally and
`std::uncaught_exceptions()` is back to 0 at the release point; the guard
destructor then performs no poisoning (the flag stays false) while still
releasing the primitive. -/
theorem no_poison_on_handled_failure {V : Type} (s : MutexState V)
    (h : s.m_was_poisoned = false) :
    (MutexGuard.dtor 0 s).m_was_poisoned = false ∧
    (MutexGuard.dtor 0 s).m_locked = false := by
  exact ⟨by simp [MutexGuard.dtor, MutexGuard.dtorBody,
    MutexGuard.releaseLock, h], rfl⟩

theorem no_poison_on_handled_failure_check :
    (MutexGuard.dtor 0 (⟨true, true, false⟩ : MutexState Bool)).m_was_poisoned
        = false ∧
    (MutexGuard.dtor 0 (⟨true, true, false⟩ : MutexState Bool)).m_locked
        = false :=
  no_poison_on_handled_failure (⟨true, true, false⟩ : MutexState Bool)
    (by decide)

/-- C6: on a poisoned mutex with the primitive free,
`Mutex::lock_unchecked()` succeeds and returns a guard whose dereference
exposes the current `m_value` (the last-known-good value), and the poison
flag is still set afterwards. -/
theorem lock_unchecked_on_poisoned {V : Type} (s : MutexState V)
    (hp : s.m_was_poisoned = true) (hl : s.m_locked = false) :
    ∃ s2, Mutex.lock_unchecked s = some s2 ∧
      MutexGuard.deref s2 = s.m_value ∧ s2.m_was_poisoned = true := by
  refine ⟨{ s with m_locked := true }, ?_, rfl, hp⟩
  simp [Mutex.lock_unchecked, hl]

theorem lock_unchecked_on_poisoned_check :
    ∃ s2, Mutex.lock_unchecked (⟨false, true, true⟩ : MutexState Bool)
        = some s2 ∧
      MutexGuard.deref s2 = true ∧ s2.m_was_poisoned = true :=
  lock_unchecked_on_poisoned (⟨false, true, true⟩ : MutexState Bool)
    (by decide) (by decide)

/-- C7: writes through a guard's dereference act on the mutex's own
`m_value`: after setting the value to `v` through a live guard and
releasing that guard normally, the next acquisition returns a guard that
observes `v`. -/
theorem guard_write_visibility {V : Type} (s : MutexState V) (v : V)
    (h : s.m_locked = true) :
    (MutexGuard.derefAssign s v).m_locked = true ∧
    ∃ s3, Mutex.lock_unchecked
        (MutexGuard.dtor 0 (MutexGuard.derefAssign s v)) = some s3 ∧
      MutexGuard.deref s3 = v := by
  refine ⟨h, { s with m_value := v, m_locked := true }, ?_, rfl⟩
  simp [Mutex.lock_unchecked, MutexGuard.dtor, MutexGuard.dtorBody,
    MutexGuard.releaseLock, MutexGuard.derefAssign]

theorem guard_write_visibility_check :
    (MutexGuard.derefAssign (⟨true, true, false⟩ : MutexState Bool)
        false).m_locked = true ∧
    ∃ s3, Mutex.lock_unchecked
        (MutexGuard.dtor 0
          (MutexGuard.derefAssign (⟨true, true, false⟩ : MutexState Bool)
            false)) = some s3 ∧
      MutexGuard.deref s3 = false :=
  guard_write_visibility (⟨true, true, false⟩ : MutexState Bool) false
    (by decide)

/-- C8: both constructors are total functions into `MutexState` (their
result type has no error alternative, matching the absence of any failure
path in the constructors themselves): for every value and every argument
list they produce an unpoisoned, unlocked mutex owning the constructed
value. -/
theorem construction_total {V A : Type} (v : V) (ctor : A → V) (args : A) :
    Mutex.mk v
        = { m_locked := false, m_value := v, m_was_poisoned := false } ∧
    Mutex.mkArgs ctor args
        = { m_locked := false, m_value := ctor args,
            m_was_poisoned := false } :=
  ⟨rfl, rfl⟩

/-- C9: the guard destructor poisons whenever the uncaught-exception count
is nonzero at destruction time, regardless of history: in particular, a
guard acquired while an unrelated exception was already unwinding
(`ue ≠ 0` at creation), whose own transaction completes without raising
(`ue` unchanged at destruction), still poisons the mutex on release. -/
theorem dtor_poisons_on_preexisting_exception {V : Type}
    (s : MutexState V) (ue : Nat) (hue : ue ≠ 0) :
    (MutexGuard.dtor ue s).m_was_poisoned = true ∧
    (s.m_locked = false →
      ∃ s1, Mutex.lock_unchecked s = some s1 ∧
        (MutexGuard.dtor ue s1).m_was_poisoned = true) := by
  constructor
  · simp [MutexGuard.dtor, MutexGuard.dtorBody, MutexGuard.releaseLock, hue]
  · intro hl
    refine ⟨{ s with m_locked := true }, by simp [Mutex.lock_unchecked, hl],
      ?_⟩
    simp [MutexGuard.dtor, MutexGuard.dtorBody, MutexGuard.releaseLock, hue]

theorem dtor_poisons_on_preexisting_exception_check :
    (MutexGuard.dtor 1 (⟨false, true, false⟩ : MutexState Bool)).m_was_poisoned
        = true ∧
    ∃ s1, Mutex.lock_unchecked (⟨false, true, false⟩ : MutexState Bool)
        = some s1 ∧
      (MutexGuard.dtor 1 s1).m_was_poisoned = true := by
  have h := dtor_poisons_on_preexisting_exception
    (⟨false, true, false⟩ : MutexState Bool) 1 (by decide)
  exact ⟨h.1, h.2 (by decide)⟩

/-- C10: on a poisoned mutex, `lock()` and `try_lock()` throw before any
acquisition attempt: control leaves the call with the mutex state exactly
as it was at entry (same value, same poison flag, same lock state), and no
guard is produced. -/
theorem checked_fail_leaves_state_unchanged {V : Type} (s : MutexState V)
    (hp : s.m_was_poisoned = true) :
    Mutex.lockCall s = CallResult.threw ⟨poisonedWhat⟩ s ∧
    Mutex.tryLockCall s = (CallResult.threw ⟨poisonedWhat⟩ s, false) := by
  constructor <;>
    simp [Mutex.lockCall, Mutex.tryLockCall, Mutex.lock, Mutex.try_lock,
      Mutex.throw_if_poisoned, Mutex.is_poisoned, hp]

theorem checked_fail_leaves_state_unchanged_check :
    Mutex.lockCall (⟨false, true, true⟩ : MutexState Bool)
        = CallResult.threw ⟨poisonedWhat⟩ ⟨false, true, true⟩ ∧
    Mutex.tryLockCall (⟨false, true, true⟩ : MutexState Bool)
        = (CallResult.threw ⟨poisonedWhat⟩ ⟨false, true, true⟩, false) :=
  checked_fail_leaves_state_unchanged (⟨false, true, true⟩ : MutexState Bool)
    (by decide)

end rmx
